import Mathlib

/-!
Verification of the timetable scheduler in `backend/timetable_generator.py`.

The Python class `TimetableScheduler` is embedded shallowly:

* the constructor inputs become the record `Problem`;
* the mutable tracking structures (`self.schedule`, `self.teacher_bookings`, …)
  become the record `State` of total functions; Python `defaultdict`s are
  modelled extensionally, an absent key being the default value;
* every method is a Lean function `Problem → State → …`;
* the calls to `random.sample` / `random.shuffle` are modelled by explicit
  order parameters (`pi : Nat → List String` supplies the slot permutation of
  the n-th `random.sample` call, and Repair receives the shuffled eviction
  order as a list), so every theorem quantifying over them covers every run;
* Python `float` arithmetic in the scorer is modelled by `ℚ` with the exact
  literal coefficients (0.5 = 1/2, 0.2 = 1/5).

Core `String` functions (`endsWith`, `replace`, `split`) are re-implemented
over `List Char` so that concrete runs reduce inside the kernel; they agree
with the Python semantics (replace substitutes every non-overlapping
occurrence left to right, split('-')[0] is the longest prefix before '-').
-/

/-- Check that `suffix` is a suffix of `l` (model of Python `str.endswith`). -/
def listEndsWith (l suffix : List Char) : Bool :=
  suffix == l.drop (l.length - suffix.length)

/-- Model of Python `s.endswith(suffix)`. -/
def strEndsWith (s suffix : String) : Bool :=
  listEndsWith s.data suffix.data

/-- Replace every non-overlapping occurrence of `pat` by `rep`, scanning left
to right (model of Python `str.replace`); `fuel` is the input length. -/
def replaceAllChars (pat rep : List Char) : Nat → List Char → List Char
  | 0, l => l
  | _, [] => []
  | fuel + 1, c :: rest =>
    if pat ≠ [] ∧ pat = (c :: rest).take pat.length then
      rep ++ replaceAllChars pat rep fuel ((c :: rest).drop pat.length)
    else
      c :: replaceAllChars pat rep fuel rest

/-- Model of Python `s.replace(pat, rep)`. -/
def strReplaceAll (s pat rep : String) : String :=
  ⟨replaceAllChars pat.data rep.data s.data.length s.data⟩

/-- Model of `time_slot.split('-')[0]`: the day tag of a slot label. -/
def dayOf (slot : String) : String :=
  ⟨slot.data.takeWhile (fun c => !(c == '-'))⟩

/-- Association-list lookup with a default, the model of Python
`dict.get(key, default)` (and of `dict[key]` at call sites where the key is
known to be present). -/
def lookupD {α : Type} (l : List (String × α)) (k : String) (d : α) : α :=
  (List.lookup k l).getD d

/-- Pointwise update of a total function, the model of `dict[key] = value`
over the extensional dictionary model. -/
def upd {α : Type} (f : String → α) (k : String) (v : α) : String → α :=
  fun x => if x = k then v else f x

/-- Update of a two-level dictionary: `dict[k1][k2] = v`. -/
def upd2 {α : Type} (f : String → String → α) (k1 k2 : String) (v : α) :
    String → String → α :=
  upd f k1 (upd (f k1) k2 v)

/-- Room record: `self.rooms[name]` is `{'capacity': …, 'type': …}`; the field
`type` is a Lean keyword and is called `rtype` here. -/
structure RoomInfo where
  capacity : Int
  rtype : String
deriving DecidableEq

/-- Constructor inputs of `TimetableScheduler.__init__`, dictionaries being
association lists in declared order (Python `dict` preserves insertion
order, which the scheduler relies on when iterating). -/
structure Problem where
  teachers : List String
  classes : List String
  subjects : List String
  rooms : List (String × RoomInfo)
  time_slots : List String
  subject_credits : List (String × Int)
  teacher_qualifications : List (String × List String)
  subject_room_requirements : List (String × String)
  subject_prerequisites : List (String × List String)
  class_sizes : List (String × Int)
  teacher_max_daily_load : Int
  consecutive_preferred : Bool
  max_attempts : Nat

/-- One cell of `self.schedule[cls][time_slot]`. -/
@[ext] structure Entry where
  subject : String
  teacher : String
  room : String
deriving DecidableEq

/-- Mutable scheduling state of the Python object: the primary assignment map
and every secondary index touched by `schedule_subject` /
`unschedule_subject`.  `available_slots` and `teacher_availability` are
omitted: the source initializes them and never mutates them (the latter is
read only as a constant-size sort key). -/
@[ext] structure State where
  schedule : String → String → Option Entry
  teacher_bookings : String → String → Bool
  class_bookings : String → String → Bool
  room_bookings : String → String → Bool
  teacher_daily_load : String → String → Int
  class_subject_time : String → String → List String
  teacher_schedule : String → String → Option (String × String)
  scheduled_counts : String → String → Int
  class_priority : String → ℚ
  lab_room_bookings : String → List String

/-- State right after `initialize_tracking_structures` (all defaultdicts
empty, `class_priority` zero). -/
def init_state : State where
  schedule := fun _ _ => none
  teacher_bookings := fun _ _ => false
  class_bookings := fun _ _ => false
  room_bookings := fun _ _ => false
  teacher_daily_load := fun _ _ => 0
  class_subject_time := fun _ _ => []
  teacher_schedule := fun _ _ => none
  scheduled_counts := fun _ _ => 0
  class_priority := fun _ => 0
  lab_room_bookings := fun _ => []

/-- Lookup of `self.rooms[room]`; every call site passes an existing key. -/
def roomInfo (I : Problem) (room : String) : RoomInfo :=
  lookupD I.rooms room ⟨0, ""⟩

/-- Model of `self.teacher_qualifications.get(teacher, [])`. -/
def qualsOf (I : Problem) (teacher : String) : List String :=
  lookupD I.teacher_qualifications teacher []

/-- Test `subject.endswith(" Lab")`. -/
def isLab (subject : String) : Bool :=
  strEndsWith subject " Lab"

/-- Model of `subject.replace(" Lab", "")`. -/
def baseOf (subject : String) : String :=
  strReplaceAll subject " Lab" ""

/-- Model of `self.time_slot_index[slot]` (position of the slot in the
declared order); call sites only use declared slots. -/
def slotIdx (I : Problem) (slot : String) : Nat :=
  List.indexOf slot I.time_slots

/-- Distinct day tags of the declared slots.  `teacher_daily_load[t]` in the
source is a per-teacher dict whose keys are exactly day tags of declared
slots, so summing `values()` is summing the load over this list. -/
def dayTags (I : Problem) : List String :=
  (I.time_slots.map dayOf).dedup

/-- Model of `sum(self.teacher_daily_load[teacher].values())`. -/
def loadSum (I : Problem) (load : String → String → Int) (teacher : String) : Int :=
  (dayTags I).foldl (fun a d => a + load teacher d) 0

/-- Body of `setup_subject_assignments` for one class: every subject with
positive credits contributes `credits` sessions, plus one `"<S> Lab"` session
when credits ≥ 3 (dict insertion order preserved). -/
def expand_credits (credits : List (String × Int)) : List (String × Int) :=
  credits.foldl (fun acc p =>
    if p.2 > 0 then
      if p.2 ≥ 3 then acc ++ [(p.1, p.2), (p.1 ++ " Lab", 1)]
      else acc ++ [(p.1, p.2)]
    else acc) []

/-- Model of `setup_subject_assignments`: the per-class requirement bags. -/
def setup_subject_assignments (I : Problem) : List (String × List (String × Int)) :=
  I.classes.map (fun cls => (cls, expand_credits I.subject_credits))

/-- Model of `self.subject_assignments[cls]`. -/
def subject_assignments (I : Problem) (cls : String) : List (String × Int) :=
  lookupD (setup_subject_assignments I) cls []

/-- Model of `self.subject_assignments[cls][subject]`; the default 0 stands
for Python's `KeyError`, which no call site can reach (each one first checks
membership). -/
def requiredOf (I : Problem) (cls subject : String) : Int :=
  lookupD (subject_assignments I cls) subject 0

/-- Recomputation of `self.class_priority[cls]` as done at the end of both
`schedule_subject` and `unschedule_subject`:
`sum(scheduled_counts[cls].get(subj, 0) / req for subj, req in
subject_assignments[cls].items())`. -/
def recompute_priority (I : Problem) (counts : String → String → Int) (cls : String) : ℚ :=
  (subject_assignments I cls).foldl (fun a p => a + (counts cls p.1 : ℚ) / (p.2 : ℚ)) 0

/-- Model of `self.subject_room_requirements.get(subject, 'theory')`. -/
def required_room_type (I : Problem) (subject : String) : String :=
  lookupD I.subject_room_requirements subject "theory"

/-- Model of `is_valid_assignment`: the conjunction of its early-return
checks, in source order — booking conflicts, teacher qualification, room
capacity, room type (flex always allowed), the lab/`required_type == 'lab'`
special case, the daily-load cap, and the lab prerequisite (some theory
session of the base subject strictly earlier; an empty or absent
`class_subject_time[cls][base]` entry fails). -/
def is_valid_assignment (I : Problem) (s : State)
    (cls subject teacher room slot : String) : Bool :=
  !(s.teacher_bookings teacher slot) &&
  !(s.class_bookings cls slot) &&
  !(s.room_bookings room slot) &&
  (qualsOf I teacher).contains subject &&
  decide (lookupD I.class_sizes cls 0 ≤ (roomInfo I room).capacity) &&
  ((roomInfo I room).rtype == "flex" || required_room_type I subject == (roomInfo I room).rtype) &&
  !(isLab subject && required_room_type I subject == "lab" && !((roomInfo I room).rtype == "lab")) &&
  decide (s.teacher_daily_load teacher (dayOf slot) < I.teacher_max_daily_load) &&
  (!(isLab subject) ||
    (s.class_subject_time cls (baseOf subject)).any
      (fun t => decide (slotIdx I t < slotIdx I slot)))

/-- Python `set.add` on the list model of `lab_room_bookings[slot]`. -/
def addSet (l : List String) (x : String) : List String :=
  if l.contains x then l else x :: l

/-- State produced by the commit part of `schedule_subject` (everything after
the validity check). -/
def apply_schedule (I : Problem) (s : State)
    (cls subject teacher room slot : String) : State :=
  let counts1 := upd2 s.scheduled_counts cls subject (s.scheduled_counts cls subject + 1)
  { schedule := upd2 s.schedule cls slot (some ⟨subject, teacher, room⟩)
    teacher_bookings := upd2 s.teacher_bookings teacher slot true
    class_bookings := upd2 s.class_bookings cls slot true
    room_bookings := upd2 s.room_bookings room slot true
    teacher_daily_load := upd2 s.teacher_daily_load teacher (dayOf slot)
      (s.teacher_daily_load teacher (dayOf slot) + 1)
    class_subject_time := upd2 s.class_subject_time cls subject
      (s.class_subject_time cls subject ++ [slot])
    teacher_schedule := upd2 s.teacher_schedule teacher slot (some (cls, subject))
    scheduled_counts := counts1
    class_priority := upd s.class_priority cls (recompute_priority I counts1 cls)
    lab_room_bookings :=
      if isLab subject && (roomInfo I room).rtype == "lab" then
        upd s.lab_room_bookings slot (addSet (s.lab_room_bookings slot) room)
      else s.lab_room_bookings }

/-- Model of `schedule_subject`: validity check, then commit. -/
def schedule_subject (I : Problem) (s : State)
    (cls subject teacher room slot : String) : Bool × State :=
  if is_valid_assignment I s cls subject teacher room slot then
    (true, apply_schedule I s cls subject teacher room slot)
  else (false, s)

/-- State produced by `unschedule_subject` once the entry `e` at
`(cls, slot)` has been read (list `remove` / set `remove` are `List.erase`;
deleting a dict key is setting the extensional default). -/
def apply_unschedule (I : Problem) (s : State) (cls slot : String) (e : Entry) : State :=
  let counts1 := upd2 s.scheduled_counts cls e.subject (s.scheduled_counts cls e.subject - 1)
  { schedule := upd2 s.schedule cls slot none
    teacher_bookings := upd2 s.teacher_bookings e.teacher slot false
    class_bookings := upd2 s.class_bookings cls slot false
    room_bookings := upd2 s.room_bookings e.room slot false
    teacher_daily_load := upd2 s.teacher_daily_load e.teacher (dayOf slot)
      (s.teacher_daily_load e.teacher (dayOf slot) - 1)
    class_subject_time := upd2 s.class_subject_time cls e.subject
      ((s.class_subject_time cls e.subject).erase slot)
    teacher_schedule := upd2 s.teacher_schedule e.teacher slot none
    scheduled_counts := counts1
    class_priority := upd s.class_priority cls (recompute_priority I counts1 cls)
    lab_room_bookings :=
      if isLab e.subject && (roomInfo I e.room).rtype == "lab" then
        upd s.lab_room_bookings slot ((s.lab_room_bookings slot).erase e.room)
      else s.lab_room_bookings }

/-- Model of `unschedule_subject`: an empty cell returns `False` unchanged
(Python: missing key, or a present-but-empty dict, both model to `none`). -/
def unschedule_subject (I : Problem) (s : State) (cls slot : String) : Bool × State :=
  match s.schedule cls slot with
  | none => (false, s)
  | some e => (true, apply_unschedule I s cls slot e)

/-- Absolute distance of two slot indexes. -/
def natDist (a b : Nat) : Nat :=
  ((a : Int) - (b : Int)).natAbs

/-- Minimum of a list of naturals (call sites pass nonempty lists, mirroring
Python `min` over a nonempty generator). -/
def minList : List Nat → Nat
  | [] => 0
  | h :: t => t.foldl min h

/-- Model of `calculate_slot_score` with the exact coefficients of the
source (`0.5` and `0.2` become `1/2` and `1/5` over `ℚ`). -/
def calculate_slot_score (I : Problem) (s : State)
    (cls subject teacher room slot : String) (prefer_consecutive : Bool) : ℚ :=
  let existing := s.class_subject_time cls subject
  let consec : ℚ :=
    if prefer_consecutive && !existing.isEmpty then
      let m := minList (existing.map (fun t => natDist (slotIdx I slot) (slotIdx I t)))
      if m = 1 then 10 else if m ≤ 3 then 5 else 0
    else 0
  let balance : ℚ :=
    ((10 : ℚ) - (loadSum I s.teacher_daily_load teacher : ℚ)) * (1/2) +
    ((I.teacher_max_daily_load : ℚ) - (s.teacher_daily_load teacher (dayOf slot) : ℚ)) * (1/5)
  let unmet : ℚ := if s.scheduled_counts cls subject < requiredOf I cls subject then 20 else 0
  let lab_bonus : ℚ := if isLab subject && (roomInfo I room).rtype == "lab" then 50 else 0
  let laggard : ℚ := (1 - s.class_priority cls) * 30
  consec + balance + unmet + lab_bonus + laggard

/-- Lexicographic order on pairs of integers, the order of Python tuple
comparison used by `sorted(..., key=lambda t: (load, -avail))`. -/
def lexLe (p q : Int × Int) : Prop :=
  p.1 < q.1 ∨ (p.1 = q.1 ∧ p.2 ≤ q.2)

instance (p q : Int × Int) : Decidable (lexLe p q) := by
  unfold lexLe
  infer_instance

/-- Sort key of `get_qualified_teachers`: total daily load, then the negated
size of `teacher_availability[t]` — which the source never mutates after
`setup_teacher_availability`, so it is the constant `len(time_slots)`. -/
def teacher_sort_key (I : Problem) (s : State) (t : String) : Int × Int :=
  (loadSum I s.teacher_daily_load t, -(I.time_slots.length : Int))

/-- Model of `get_qualified_teachers`: qualified teachers in declared order,
stably sorted by the key (Python `sorted` is stable; so is
`List.insertionSort`). -/
def get_qualified_teachers (I : Problem) (s : State) (subject : String) : List String :=
  List.insertionSort
    (fun a b => lexLe (teacher_sort_key I s a) (teacher_sort_key I s b))
    (I.teachers.filter (fun t => (qualsOf I t).contains subject))

/-- Model of `find_available_slot`.  `slot_order` stands for the value of
`random.sample(self.time_slots, len(self.time_slots))` of this call; rooms
are filtered in declared order then stably sorted by capacity.  The initial
best score is the literal `-1` of the source. -/
def find_available_slot (I : Problem) (s : State) (cls subject teacher : String)
    (slot_order : List String) (prefer_consecutive : Bool) : Option (String × String) :=
  let required_type := if isLab subject then "lab" else required_room_type I subject
  let suitable := List.insertionSort
    (fun a b => (roomInfo I a).capacity ≤ (roomInfo I b).capacity)
    ((I.rooms.filter (fun p =>
        decide (lookupD I.class_sizes cls 0 ≤ p.2.capacity) &&
        (p.2.rtype == "flex" || p.2.rtype == required_type))).map (fun p => p.1))
  if suitable.isEmpty then none
  else
    (slot_order.foldl (fun best slot =>
      suitable.foldl (fun best room =>
        if (roomInfo I room).rtype == "lab" && !(s.lab_room_bookings slot).isEmpty then best
        else if is_valid_assignment I s cls subject teacher room slot then
          let sc := calculate_slot_score I s cls subject teacher room slot prefer_consecutive
          if best.2 < sc then (some (slot, room), sc) else best
        else best) best) ((none : Option (String × String)), (-1 : ℚ))).1

/-- Teacher loop shared verbatim by `generate_timetable` (lines 641-648) and
`resolve_conflicts_aggressive` (its target and reschedule loops): walk the
qualified teachers, call `find_available_slot` — note the call sites pass no
`prefer_consecutive` argument, so the Python default `True` applies
regardless of `self.consecutive_preferred` — and commit the first success.
Returns (success, state, next sample index). -/
def try_teachers (I : Problem) (pi : Nat → List String) (cls subject : String) :
    List String → State → Nat → Bool × State × Nat
  | [], s, n => (false, s, n)
  | t :: rest, s, n =>
    match find_available_slot I s cls subject t (pi n) true with
    | none => try_teachers I pi cls subject rest s (n + 1)
    | some p =>
      let r := schedule_subject I s cls subject t p.2 p.1
      if r.1 then (true, r.2, n + 1)
      else try_teachers I pi cls subject rest r.2 (n + 1)

/-- Edge insertion of `topological_sort_subjects` for one `(subject, prereq)`
pair.  Both conditionals sit inside the loop over the declared prerequisites
of `subject`'s base, exactly as in the source (the theory→lab conditional is
nested in that loop). -/
def edge_step (_I : Problem) (subjects : List String) (subject : String)
    (acc : (String → List String) × (String → Int)) (prereq : String) :
    (String → List String) × (String → Int) :=
  let acc1 :=
    if subjects.contains prereq then
      (upd acc.1 prereq (acc.1 prereq ++ [subject]), upd acc.2 subject (acc.2 subject + 1))
    else acc
  if isLab subject && subjects.contains (baseOf subject) then
    (upd acc1.1 (baseOf subject) (acc1.1 (baseOf subject) ++ [subject]),
     upd acc1.2 subject (acc1.2 subject + 1))
  else acc1

/-- Graph contribution of one subject: fold `edge_step` over the declared
prerequisites of its base subject. -/
def graph_step (I : Problem) (subjects : List String) (subject : String)
    (acc : (String → List String) × (String → Int)) :
    (String → List String) × (String → Int) :=
  (lookupD I.subject_prerequisites (baseOf subject) []).foldl
    (edge_step I subjects subject) acc

/-- Subjects of a class's requirement bag, in insertion order. -/
def topo_subject_list (I : Problem) (cls : String) : List String :=
  (subject_assignments I cls).map (fun p => p.1)

/-- The prerequisite graph (`graph`, `in_degree`) built by
`topological_sort_subjects`, as adjacency and in-degree functions with
extensional defaults `[]` and `0`. -/
def build_graph (I : Problem) (cls : String) :
    (String → List String) × (String → Int) :=
  let subjects := topo_subject_list I cls
  subjects.foldl (fun acc subject => graph_step I subjects subject acc)
    (fun _ => [], fun _ => 0)

/-- Total number of recorded edges, used to bound Kahn's loop. -/
def edge_total (graph : String → List String) (subjects : List String) : Nat :=
  subjects.foldl (fun a x => a + (graph x).length) 0

/-- Kahn's algorithm queue loop.  Each iteration pops one node, so the fuel
`|subjects| + |edges| + 1` (an upper bound on total enqueues) makes the fuel
version agree with the unbounded Python `while queue`. -/
def kahn_loop (graph : String → List String) :
    Nat → List String → (String → Int) → List String → List String
  | 0, _, _, result => result
  | fuel + 1, queue, deg, result =>
    match queue with
    | [] => result
    | subject :: qrest =>
      let step := (graph subject).foldl (fun acc nb =>
          let d := acc.1 nb - 1
          (upd acc.1 nb d, if d = 0 then acc.2 ++ [nb] else acc.2))
        (deg, ([] : List String))
      kahn_loop graph fuel (qrest ++ step.2) step.1 (result ++ [subject])

/-- Model of `topological_sort_subjects`: build the graph, run Kahn from the
zero-in-degree nodes in insertion order, and fall back to insertion order on
a cycle (result shorter than the subject list). -/
def topological_sort_subjects (I : Problem) (cls : String) : List String :=
  let subjects := topo_subject_list I cls
  let g := build_graph I cls
  let queue := subjects.filter (fun x => decide (g.2 x = 0))
  let result := kahn_loop g.1 (subjects.length + edge_total g.1 subjects + 1) queue g.2 []
  if result.length = subjects.length then result else subjects

/-- Model of `self.subject_order[cls]` precomputed by `setup_subject_order`. -/
def subject_order (I : Problem) (cls : String) : List String :=
  topological_sort_subjects I cls

/-- Result of a run of `generate_timetable`: the final state, the final
`unscheduled_classes`, the list of (class, subject) pairs for which the
driver invoked `resolve_conflicts_aggressive` (the driver body contains no
call site of it, so nothing is ever appended), and the next sample index. -/
structure DriverResult where
  state : State
  unscheduled : List String
  repairCalls : List (String × String)
  rngIdx : Nat

/-- Subject loop of one class inside `generate_timetable` (the
`for subject in ordered_subjects` loop).  Returns (state, progress, next
sample index, broke), where `broke` records whether the loop exited through
`break` — the loop's `else:` clause (which discards the class from
`unscheduled_classes`) runs exactly when `broke` is false.  Note the
`if progress: break` uses the iteration-wide flag, so once any class of this
pass progressed, the next class breaks at its first unmet subject. -/
def try_subjects (I : Problem) (pi : Nat → List String) (cls : String) :
    List String → State → Bool → Nat → State × Bool × Nat × Bool
  | [], s, prog, n => (s, prog, n, false)
  | subject :: rest, s, prog, n =>
    match List.lookup subject (subject_assignments I cls) with
    | none => try_subjects I pi cls rest s prog n
    | some required =>
      if s.scheduled_counts cls subject < required then
        let teachers := get_qualified_teachers I s subject
        if teachers.isEmpty then try_subjects I pi cls rest s prog n
        else
          let r := try_teachers I pi cls subject teachers s n
          let prog1 := prog || r.1
          if prog1 then (r.2.1, prog1, r.2.2, true)
          else try_subjects I pi cls rest r.2.1 prog1 r.2.2
      else try_subjects I pi cls rest s prog n

/-- Class loop of one driver iteration (`for cls in classes_by_priority`),
with the `for … else` discard of the subject loop applied to
`unscheduled_classes`. -/
def process_classes (I : Problem) (pi : Nat → List String) :
    List String → State → List String → Bool → Nat → State × List String × Bool × Nat
  | [], s, unscheduled, prog, n => (s, unscheduled, prog, n)
  | cls :: rest, s, unscheduled, prog, n =>
    let r := try_subjects I pi cls (subject_order I cls) s prog n
    let unscheduled1 := if r.2.2.2 then unscheduled else unscheduled.erase cls
    process_classes I pi rest r.1 unscheduled1 r.2.1 r.2.2.1

/-- Outer `while unscheduled_classes and progress and iteration < 1000` loop
of `generate_timetable`; the fuel is the remaining iteration budget.  The
Python set `unscheduled_classes` is modelled as a duplicate-free list in
insertion order (its iteration order feeds a stable sort; claims proved for
all runs do not depend on the tie order).  `trace` is the repair-invocation
record of `DriverResult.repairCalls`. -/
def driver_loop (I : Problem) (pi : Nat → List String) :
    Nat → State → List String → Nat → List (String × String) → DriverResult
  | 0, s, unscheduled, n, trace => ⟨s, unscheduled, trace, n⟩
  | fuel + 1, s, unscheduled, n, trace =>
    if unscheduled.isEmpty then ⟨s, unscheduled, trace, n⟩
    else
      let ordered := List.insertionSort
        (fun a b => s.class_priority a ≤ s.class_priority b) unscheduled
      let r := process_classes I pi ordered s unscheduled false n
      if r.2.2.1 then driver_loop I pi fuel r.1 r.2.1 r.2.2.2 trace
      else ⟨r.1, r.2.1, trace, r.2.2.2⟩

/-- Model of `generate_timetable`, starting from the freshly initialized
state with the iteration cap 1000 of the source. -/
def generate_timetable (I : Problem) (pi : Nat → List String) : DriverResult :=
  driver_loop I pi 1000 init_state I.classes 0 []

/-- Reschedule loop of `resolve_conflicts_aggressive`: every moved
assignment must find some new placement (teacher and slot are retried from
scratch; the recorded teacher/slot are only printed by the source). -/
def reschedule_moved (I : Problem) (pi : Nat → List String) (cls : String) :
    List (String × String × String) → State → Nat → Bool × State × Nat
  | [], s, n => (true, s, n)
  | m :: rest, s, n =>
    let r := try_teachers I pi cls m.1 (get_qualified_teachers I s m.1) s n
    if r.1 then reschedule_moved I pi cls rest r.2.1 r.2.2
    else (false, r.2.1, r.2.2)

/-- Eviction loop of `resolve_conflicts_aggressive` over (at most three)
candidate slots.  On a failed target placement the eviction is kept and the
loop continues, accumulating `moved`; every failing exit returns `backup`
(the deep copy taken on entry), every successful exit returns the current
state. -/
def repair_loop (I : Problem) (pi : Nat → List String) (backup : State)
    (cls subject : String) :
    List String → State → List (String × String × String) → Nat → Bool × State × Nat
  | [], _, _, n => (false, backup, n)
  | slot :: rest, s, moved, n =>
    match s.schedule cls slot with
    | none => repair_loop I pi backup cls subject rest s moved n
    | some e =>
      if isLab e.subject && !(isLab subject) then
        repair_loop I pi backup cls subject rest s moved n
      else
        let u := unschedule_subject I s cls slot
        let moved1 := moved ++ [(e.subject, e.teacher, slot)]
        let tr := try_teachers I pi cls subject (get_qualified_teachers I u.2 subject) u.2 n
        if tr.1 then
          let rr := reschedule_moved I pi cls moved1 tr.2.1 tr.2.2
          if rr.1 then (true, rr.2.1, rr.2.2) else (false, backup, rr.2.2)
        else
          repair_loop I pi backup cls subject rest tr.2.1 moved1 tr.2.2

/-- Model of `resolve_conflicts_aggressive`.  `evict_order` is the shuffled
`scheduled_slots` list of this run; `range(min(3, len(...)))` walks its first
three entries. -/
def resolve_conflicts_aggressive (I : Problem) (pi : Nat → List String) (s : State)
    (cls subject : String) (evict_order : List String) (n : Nat) : Bool × State × Nat :=
  repair_loop I pi s cls subject (evict_order.take 3) s [] n

/-- Model of `validate_inputs` as a predicate: `true` iff it raises. -/
def validate_inputs (I : Problem) : Bool :=
  I.teachers.isEmpty || I.classes.isEmpty || I.subjects.isEmpty ||
  I.rooms.isEmpty || I.time_slots.isEmpty ||
  I.classes.any (fun cls =>
    match List.lookup cls I.class_sizes with
    | none => true
    | some v => decide (v ≤ 0))

/-- Lab subjects derived by `check_teacher_coverage`: one per member of the
`subjects` input list with credits ≥ 3 (note: the `subjects` list, not the
requirement bag). -/
def lab_subjects_of (I : Problem) : List String :=
  (I.subjects.filter (fun s => decide (3 ≤ lookupD I.subject_credits s 0))).map
    (fun s => s ++ " Lab")

/-- The set `all_subjects = set(self.subjects) | lab_subjects` examined by
`check_teacher_coverage`, as a duplicate-free list. -/
def checked_subjects (I : Problem) : List String :=
  (I.subjects ++ lab_subjects_of I).dedup

/-- Number of teachers whose qualification list contains `subject`. -/
def qualified_count (I : Problem) (subject : String) : Int :=
  ((I.teachers.filter (fun t => (qualsOf I t).contains subject)).length : Int)

/-- The `subject_coverage` counting dict of `check_teacher_coverage`, built
by the same double loop. -/
def coverage_counts (I : Problem) : String → Int :=
  (checked_subjects I).foldl (fun cov subject =>
    I.teachers.foldl (fun cov teacher =>
      if (qualsOf I teacher).contains subject then upd cov subject (cov subject + 1)
      else cov) cov)
    (fun _ => 0)

/-- Model of `check_teacher_coverage` as a predicate: `true` iff it raises
`No qualified teachers available for …`. -/
def check_teacher_coverage (I : Problem) : Bool :=
  (checked_subjects I).any (fun subject => decide (coverage_counts I subject = 0))

/-- Total required sessions over all classes, as summed by
`validate_feasibility`. -/
def total_required (I : Problem) : Int :=
  I.classes.foldl (fun a cls =>
    a + (subject_assignments I cls).foldl (fun b p => b + p.2) 0) 0

/-- Model of `validate_feasibility` as a predicate: `true` iff it raises. -/
def validate_feasibility (I : Problem) : Bool :=
  decide ((I.teachers.length : Int) * (I.time_slots.length : Int) < total_required I)

/-- Constructor success: none of the three fatal validation steps raises. -/
def init_ok (I : Problem) : Bool :=
  !(validate_inputs I) && !(check_teacher_coverage I) && !(validate_feasibility I)

/-- Index coherence of a state (specification invariant 11 restricted to the
facts the round-trip needs): bookings dominate the schedule map, the
per-subject time lists and the teacher schedule, lab-room occupancy is
covered by room bookings, and the stored class priority equals its
recomputation from the scheduled counts. -/
def Coherent (I : Problem) (s : State) : Prop :=
  (∀ c t, s.class_bookings c t = false → s.schedule c t = none) ∧
  (∀ c sub t, t ∈ s.class_subject_time c sub → s.class_bookings c t = true) ∧
  (∀ te t, s.teacher_bookings te t = false → s.teacher_schedule te t = none) ∧
  (∀ t r, r ∈ s.lab_room_bookings t → s.room_bookings r t = true) ∧
  (∀ c, s.class_priority c = recompute_priority I s.scheduled_counts c)

/-- Problem with a single subject whose declared room requirement is `lab`
while only a theory room exists: the constructor accepts it, and the driver
can never place the subject. -/
def exP1 : Problem where
  teachers := ["T"]
  classes := ["C"]
  subjects := ["S"]
  rooms := [("R", ⟨30, "theory"⟩)]
  time_slots := ["Mon-1"]
  subject_credits := [("S", 1)]
  teacher_qualifications := [("T", ["S"])]
  subject_room_requirements := [("S", "lab")]
  subject_prerequisites := []
  class_sizes := [("C", 20)]
  teacher_max_daily_load := 5
  consecutive_preferred := true
  max_attempts := 200

/-- Slot permutation stream for runs over `exP1` (one slot, one order). -/
def exPi1 : Nat → List String := fun _ => ["Mon-1"]

/-- Feasible one-subject problem with two slots, used for round-trip and
over-scheduling runs. -/
def exP2 : Problem where
  teachers := ["T"]
  classes := ["C"]
  subjects := ["S"]
  rooms := [("R", ⟨30, "theory"⟩)]
  time_slots := ["Mon-1", "Mon-2"]
  subject_credits := [("S", 1)]
  teacher_qualifications := [("T", ["S"])]
  subject_room_requirements := []
  subject_prerequisites := []
  class_sizes := [("C", 20)]
  teacher_max_daily_load := 5
  consecutive_preferred := true
  max_attempts := 200

/-- State of `exP2` after one committed placement of S at Mon-1: the
scheduled count of (C, S) equals its required count 1. -/
def exS2 : State :=
  (schedule_subject exP2 init_state "C" "S" "T" "R" "Mon-1").2

/-- Problem with a credit-3 subject (hence a derived "S Lab" requirement), a
theory room and a lab room, and no entry for "S Lab" in
`subject_room_requirements`. -/
def exP3 : Problem where
  teachers := ["T"]
  classes := ["C"]
  subjects := ["S"]
  rooms := [("R", ⟨30, "theory"⟩), ("L", ⟨30, "lab"⟩)]
  time_slots := ["Mon-1", "Mon-2"]
  subject_credits := [("S", 3)]
  teacher_qualifications := [("T", ["S", "S Lab"])]
  subject_room_requirements := []
  subject_prerequisites := []
  class_sizes := [("C", 20)]
  teacher_max_daily_load := 5
  consecutive_preferred := true
  max_attempts := 200

/-- State of `exP3` after one theory session of S at Mon-1, so the lab
prerequisite of "S Lab" is satisfiable at Mon-2. -/
def exS3 : State :=
  (schedule_subject exP3 init_state "C" "S" "T" "R" "Mon-1").2

/-- Problem whose `subject_credits` contains a subject "B" absent from the
`subjects` input list and from every qualification list. -/
def exP7 : Problem where
  teachers := ["T"]
  classes := ["C"]
  subjects := ["A"]
  rooms := [("R", ⟨30, "theory"⟩)]
  time_slots := ["Mon-1", "Mon-2"]
  subject_credits := [("A", 1), ("B", 1)]
  teacher_qualifications := [("T", ["A"])]
  subject_room_requirements := []
  subject_prerequisites := []
  class_sizes := [("C", 20)]
  teacher_max_daily_load := 5
  consecutive_preferred := true
  max_attempts := 200

/-- Problem with a credit-3 subject S that has no declared prerequisites, so
its bag contains "S Lab". -/
def exP8 : Problem where
  teachers := ["T"]
  classes := ["C"]
  subjects := ["S"]
  rooms := [("R", ⟨30, "theory"⟩)]
  time_slots := ["Mon-1", "Mon-2"]
  subject_credits := [("S", 3)]
  teacher_qualifications := [("T", ["S", "S Lab"])]
  subject_room_requirements := []
  subject_prerequisites := []
  class_sizes := [("C", 20)]
  teacher_max_daily_load := 5
  consecutive_preferred := true
  max_attempts := 200

/-- Variant of `exP8` with a declared prerequisite P of S, so the graph
receives declared edges. -/
def exP8b : Problem where
  teachers := ["T"]
  classes := ["C"]
  subjects := ["P", "S"]
  rooms := [("R", ⟨30, "theory"⟩)]
  time_slots := ["Mon-1", "Mon-2"]
  subject_credits := [("P", 1), ("S", 3)]
  teacher_qualifications := [("T", ["P", "S", "S Lab"])]
  subject_room_requirements := []
  subject_prerequisites := [("S", ["P"])]
  class_sizes := [("C", 20)]
  teacher_max_daily_load := 5
  consecutive_preferred := true
  max_attempts := 200

/-- Problem constructed with `consecutive_preferred = False`, five Monday
slots, one theory room. -/
def exP9 : Problem where
  teachers := ["T"]
  classes := ["C"]
  subjects := ["S"]
  rooms := [("R", ⟨30, "theory"⟩)]
  time_slots := ["Mon-1", "Mon-2", "Mon-3", "Mon-4", "Mon-5"]
  subject_credits := [("S", 3)]
  teacher_qualifications := [("T", ["S", "S Lab"])]
  subject_room_requirements := []
  subject_prerequisites := []
  class_sizes := [("C", 20)]
  teacher_max_daily_load := 5
  consecutive_preferred := false
  max_attempts := 200

/-- State of `exP9` with the one existing S session at Mon-1. -/
def exS9a : State :=
  (schedule_subject exP9 init_state "C" "S" "T" "R" "Mon-1").2

/-- State of `exP9` with the one existing S session at Mon-5; it differs
from `exS9a` only in where that session sits. -/
def exS9b : State :=
  (schedule_subject exP9 init_state "C" "S" "T" "R" "Mon-5").2

/-- Problem with two classes and a subject "B" carrying positive credits but
absent from the `subjects` list, used to instantiate the requirement-bag
properties. -/
def exPw : Problem where
  teachers := ["T"]
  classes := ["C1", "C2"]
  subjects := ["A"]
  rooms := [("R", ⟨30, "theory"⟩)]
  time_slots := ["Mon-1", "Mon-2", "Tue-1"]
  subject_credits := [("A", 3), ("B", 2)]
  teacher_qualifications := [("T", ["A", "A Lab", "B"])]
  subject_room_requirements := []
  subject_prerequisites := []
  class_sizes := [("C1", 20), ("C2", 25)]
  teacher_max_daily_load := 5
  consecutive_preferred := true
  max_attempts := 200

theorem upd_apply_self {α : Type} (f : String → α) (k : String) (v : α) :
    upd f k v k = v := by
  simp [upd]

theorem upd_same {α : Type} (f : String → α) (k : String) : upd f k (f k) = f := by
  funext x
  by_cases h : x = k <;> simp [upd, h]

theorem upd_upd {α : Type} (f : String → α) (k : String) (v w : α) :
    upd (upd f k v) k w = upd f k w := by
  funext x
  by_cases h : x = k <;> simp [upd, h]

theorem upd2_apply_self {α : Type} (f : String → String → α) (k1 k2 : String) (v : α) :
    upd2 f k1 k2 v k1 k2 = v := by
  simp [upd2, upd]

theorem upd2_cancel {α : Type} (f : String → String → α) (k1 k2 : String) (v w : α)
    (h : f k1 k2 = w) : upd2 (upd2 f k1 k2 v) k1 k2 w = f := by
  unfold upd2
  rw [upd_apply_self f k1 (upd (f k1) k2 v),
    upd_upd f k1 (upd (f k1) k2 v) (upd (upd (f k1) k2 v) k2 w),
    upd_upd (f k1) k2 v w, ← h, upd_same (f k1) k2, upd_same f k1]

theorem is_valid_bookings_false (I : Problem) (s : State)
    (cls subject teacher room slot : String)
    (h : is_valid_assignment I s cls subject teacher room slot = true) :
    s.teacher_bookings teacher slot = false ∧ s.class_bookings cls slot = false ∧
      s.room_bookings room slot = false := by
  simp only [is_valid_assignment, Bool.and_eq_true, Bool.not_eq_true'] at h
  exact ⟨h.1.1.1.1.1.1.1.1, h.1.1.1.1.1.1.1.2, h.1.1.1.1.1.1.2⟩

theorem schedule_subject_of_valid (I : Problem) (s : State)
    (cls subject teacher room slot : String)
    (h : is_valid_assignment I s cls subject teacher room slot = true) :
    schedule_subject I s cls subject teacher room slot =
      (true, apply_schedule I s cls subject teacher room slot) := by
  simp [schedule_subject, h]

theorem schedule_subject_of_invalid (I : Problem) (s : State)
    (cls subject teacher room slot : String)
    (h : is_valid_assignment I s cls subject teacher room slot = false) :
    schedule_subject I s cls subject teacher room slot = (false, s) := by
  simp [schedule_subject, h]

theorem apply_schedule_counts (I : Problem) (s : State)
    (cls subject teacher room slot : String) (x : String) :
    (apply_schedule I s cls subject teacher room slot).scheduled_counts cls x =
      s.scheduled_counts cls x + (if x = subject then 1 else 0) := by
  by_cases hx : x = subject
  · subst hx; simp [apply_schedule, upd2, upd]
  · simp [apply_schedule, upd2, upd, hx]

theorem apply_unschedule_counts (I : Problem) (s : State) (cls slot : String)
    (e : Entry) (x : String) :
    (apply_unschedule I s cls slot e).scheduled_counts cls x =
      s.scheduled_counts cls x - (if x = e.subject then 1 else 0) := by
  by_cases hx : x = e.subject
  · subst hx; simp [apply_unschedule, upd2, upd]
  · simp [apply_unschedule, upd2, upd, hx]

theorem try_teachers_fail (I : Problem) (pi : Nat → List String) (cls subject : String) :
    ∀ (ts : List String) (s : State) (n : Nat),
      (try_teachers I pi cls subject ts s n).1 = false →
      (try_teachers I pi cls subject ts s n).2.1 = s := by
  intro ts
  induction ts with
  | nil => intro s n _; rfl
  | cons t rest ih =>
    intro s n h
    rw [try_teachers] at h ⊢
    cases hf : find_available_slot I s cls subject t (pi n) true with
    | none =>
      rw [hf] at h
      exact ih s (n + 1) h
    | some p =>
      rw [hf] at h
      cases hv : is_valid_assignment I s cls subject t p.2 p.1 with
      | true =>
        simp [schedule_subject_of_valid I s cls subject t p.2 p.1 hv] at h
      | false =>
        simp only [schedule_subject_of_invalid I s cls subject t p.2 p.1 hv] at h ⊢
        exact ih s (n + 1) h

theorem try_teachers_counts (I : Problem) (pi : Nat → List String) (cls subject : String) :
    ∀ (ts : List String) (s : State) (n : Nat),
      (try_teachers I pi cls subject ts s n).1 = true →
      ∀ x, (try_teachers I pi cls subject ts s n).2.1.scheduled_counts cls x =
        s.scheduled_counts cls x + (if x = subject then 1 else 0) := by
  intro ts
  induction ts with
  | nil => intro s n h; exact absurd h (by simp [try_teachers])
  | cons t rest ih =>
    intro s n h x
    rw [try_teachers] at h ⊢
    cases hf : find_available_slot I s cls subject t (pi n) true with
    | none =>
      rw [hf] at h
      exact ih s (n + 1) h x
    | some p =>
      rw [hf] at h
      cases hv : is_valid_assignment I s cls subject t p.2 p.1 with
      | true =>
        simp only [schedule_subject_of_valid I s cls subject t p.2 p.1 hv] at h ⊢
        exact apply_schedule_counts I s cls subject t p.2 p.1 x
      | false =>
        simp only [schedule_subject_of_invalid I s cls subject t p.2 p.1 hv] at h ⊢
        exact ih s (n + 1) h x

theorem reschedule_moved_counts (I : Problem) (pi : Nat → List String) (cls : String) :
    ∀ (m : List (String × String × String)) (s : State) (n : Nat),
      (reschedule_moved I pi cls m s n).1 = true →
      ∀ x, (reschedule_moved I pi cls m s n).2.1.scheduled_counts cls x =
        s.scheduled_counts cls x + (((m.map (fun q => q.1)).count x : Int)) := by
  intro m
  induction m with
  | nil => intro s n _ x; simp [reschedule_moved]
  | cons q rest ih =>
    intro s n h x
    rw [reschedule_moved] at h ⊢
    cases htr : (try_teachers I pi cls q.1 (get_qualified_teachers I s q.1) s n).1 with
    | false => simp only [htr, Bool.false_eq_true, if_false] at h
    | true =>
      simp only [htr, if_true] at h ⊢
      have h1 := try_teachers_counts I pi cls q.1
        (get_qualified_teachers I s q.1) s n htr x
      have h2 := ih (try_teachers I pi cls q.1 (get_qualified_teachers I s q.1) s n).2.1
        (try_teachers I pi cls q.1 (get_qualified_teachers I s q.1) s n).2.2 h x
      rw [h2, h1]
      by_cases hx : x = q.1
      · subst hx; simp [List.count_cons]; ring
      · have : ¬(q.1 = x) := fun hh => hx hh.symm
        simp [List.count_cons, this, hx]

theorem repair_loop_spec (I : Problem) (pi : Nat → List String) (backup : State)
    (cls subject : String) :
    ∀ (order : List String) (s : State) (moved : List (String × String × String)) (n : Nat),
      (∀ x, s.scheduled_counts cls x =
        backup.scheduled_counts cls x - (((moved.map (fun q => q.1)).count x : Int))) →
      ((repair_loop I pi backup cls subject order s moved n).1 = false ∧
        (repair_loop I pi backup cls subject order s moved n).2.1 = backup) ∨
      ((repair_loop I pi backup cls subject order s moved n).1 = true ∧
        ∀ x, (repair_loop I pi backup cls subject order s moved n).2.1.scheduled_counts cls x =
          backup.scheduled_counts cls x + (if x = subject then 1 else 0)) := by
  intro order
  induction order with
  | nil => intro s moved n _; left; exact ⟨rfl, rfl⟩
  | cons slot rest ih =>
    intro s moved n hinv
    rw [repair_loop]
    cases hsch : s.schedule cls slot with
    | none => exact ih s moved n hinv
    | some e =>
      cases hb : (isLab e.subject && !(isLab subject)) with
      | true =>
        simp only [hb, if_true]
        exact ih s moved n hinv
      | false =>
        simp only [hb, Bool.false_eq_true, if_false]
        have hu : unschedule_subject I s cls slot = (true, apply_unschedule I s cls slot e) := by
          rw [unschedule_subject, hsch]
        simp only [hu]
        have hinv1 : ∀ x, (apply_unschedule I s cls slot e).scheduled_counts cls x =
            backup.scheduled_counts cls x -
              ((((moved ++ [(e.subject, e.teacher, slot)]).map (fun q => q.1)).count x : Int)) := by
          intro x
          rw [apply_unschedule_counts, hinv x]
          by_cases hx : x = e.subject
          · subst hx; simp [List.count_append]; ring
          · have : ¬(e.subject = x) := fun hh => hx hh.symm
            simp [List.count_append, this, hx]
        cases htr : (try_teachers I pi cls subject
            (get_qualified_teachers I (apply_unschedule I s cls slot e) subject)
            (apply_unschedule I s cls slot e) n).1 with
        | false =>
          simp only [htr, Bool.false_eq_true, if_false]
          have hst := try_teachers_fail I pi cls subject
            (get_qualified_teachers I (apply_unschedule I s cls slot e) subject)
            (apply_unschedule I s cls slot e) n htr
          rw [hst]
          exact ih (apply_unschedule I s cls slot e) (moved ++ [(e.subject, e.teacher, slot)])
            (try_teachers I pi cls subject
              (get_qualified_teachers I (apply_unschedule I s cls slot e) subject)
              (apply_unschedule I s cls slot e) n).2.2 hinv1
        | true =>
          simp only [htr, if_true]
          cases hrr : (reschedule_moved I pi cls (moved ++ [(e.subject, e.teacher, slot)])
              (try_teachers I pi cls subject
                (get_qualified_teachers I (apply_unschedule I s cls slot e) subject)
                (apply_unschedule I s cls slot e) n).2.1
              (try_teachers I pi cls subject
                (get_qualified_teachers I (apply_unschedule I s cls slot e) subject)
                (apply_unschedule I s cls slot e) n).2.2).1 with
          | false =>
            refine Or.inl ⟨?_, ?_⟩ <;> simp [hrr]
          | true =>
            right
            refine ⟨by simp [hrr], fun x => ?_⟩
            simp only [hrr, if_true]
            have h3 := reschedule_moved_counts I pi cls
              (moved ++ [(e.subject, e.teacher, slot)])
              (try_teachers I pi cls subject
                (get_qualified_teachers I (apply_unschedule I s cls slot e) subject)
                (apply_unschedule I s cls slot e) n).2.1
              (try_teachers I pi cls subject
                (get_qualified_teachers I (apply_unschedule I s cls slot e) subject)
                (apply_unschedule I s cls slot e) n).2.2 hrr x
            have h4 := try_teachers_counts I pi cls subject
              (get_qualified_teachers I (apply_unschedule I s cls slot e) subject)
              (apply_unschedule I s cls slot e) n htr x
            rw [h3, h4, hinv1 x]
            ring

/-- C5: `resolve_conflicts_aggressive` is atomic.  For every problem, every
sample stream, every eviction order and every starting state, either it
returns failure and its returned state is exactly the state it was entered
with (the snapshot taken by `create_backup_state` and reinstalled by
`restore_backup_state`), or it returns success and the class's scheduled
counts show the target subject placed exactly once more with every evicted
assignment re-placed (every other subject's count is unchanged). -/
theorem resolve_conflicts_aggressive_atomic (I : Problem) (pi : Nat → List String)
    (s : State) (cls subject : String) (evict_order : List String) (n : Nat) :
    ((resolve_conflicts_aggressive I pi s cls subject evict_order n).1 = false ∧
      (resolve_conflicts_aggressive I pi s cls subject evict_order n).2.1 = s) ∨
    ((resolve_conflicts_aggressive I pi s cls subject evict_order n).1 = true ∧
      ∀ x, (resolve_conflicts_aggressive I pi s cls subject evict_order n).2.1.scheduled_counts cls x =
        s.scheduled_counts cls x + (if x = subject then 1 else 0)) := by
  exact repair_loop_spec I pi s cls subject (evict_order.take 3) s [] n (fun x => by simp)

theorem driver_loop_trace (I : Problem) (pi : Nat → List String) :
    ∀ (fuel : Nat) (s : State) (unscheduled : List String) (n : Nat)
      (trace : List (String × String)),
      (driver_loop I pi fuel s unscheduled n trace).repairCalls = trace := by
  intro fuel
  induction fuel with
  | zero => intro s u n trace; rfl
  | succ fuel ih =>
    intro s u n trace
    rw [driver_loop]
    cases hu : u.isEmpty with
    | true => simp [hu]
    | false =>
      simp only [hu, Bool.false_eq_true, if_false]
      cases hp : (process_classes I pi
          (List.insertionSort (fun a b => s.class_priority a ≤ s.class_priority b) u)
          s u false n).2.2.1 with
      | true => simp only [hp, if_true]; exact ih _ _ _ _
      | false => simp [hp]

/-- C1 (amended): the round-robin driver never invokes Repair.
`generate_timetable` contains no call site of `resolve_conflicts_aggressive`,
so for every problem and every run the recorded repair invocations are empty:
when an iteration makes no progress the driver terminates directly with the
best-effort schedule (Repair is exercised only by the legacy
`schedule_subject_sessions` path, which `generate_timetable` does not use). -/
theorem generate_timetable_never_invokes_repair (I : Problem) (pi : Nat → List String) :
    (generate_timetable I pi).repairCalls = [] :=
  driver_loop_trace I pi 1000 init_state I.classes 0 []

/-- C1 (counterexample): on `exP1` the driver terminates with the required
session of (C, S) unplaced — the iteration made no progress on that stuck
pair — and yet Repair was never invoked for it, contradicting the claim that
a stuck pair is handed to Repair before terminating. -/
theorem generate_timetable_stuck_pair_without_repair :
    (generate_timetable exP1 exPi1).state.scheduled_counts "C" "S" = 0 ∧
    requiredOf exP1 "C" "S" = 1 ∧
    ("C", "S") ∉ (generate_timetable exP1 exPi1).repairCalls := by
  decide

/-- C4: the `for … else` of the subject loop fires whenever no placement
succeeded during the class's turn, so on `exP1` the class C is removed from
`unscheduled_classes` in the very first iteration although its subject S
still has 0 of 1 required sessions scheduled — a class with unmet required
sessions is removed from U. -/
theorem driver_discards_class_with_unmet_sessions :
    (generate_timetable exP1 exPi1).unscheduled = [] ∧
    (generate_timetable exP1 exPi1).state.scheduled_counts "C" "S" = 0 ∧
    requiredOf exP1 "C" "S" = 1 := by
  decide

/-- C2 (amended): `schedule_subject` commits exactly when
`is_valid_assignment` accepts — conflict-freeness, qualification, capacity,
room type, daily load and the lab prerequisite — and on rejection it leaves
the state unchanged.  The check never consults the scheduled/required
counts: a commit always increments the count of (cls, subject), with no
guard against exceeding the requirement (the driver preserves invariant 9
only because it attempts placements solely when scheduled < required). -/
theorem schedule_subject_commit_characterization (I : Problem) (s : State)
    (cls subject teacher room slot : String) :
    (is_valid_assignment I s cls subject teacher room slot = true ∧
      (schedule_subject I s cls subject teacher room slot).1 = true ∧
      (schedule_subject I s cls subject teacher room slot).2.scheduled_counts cls subject =
        s.scheduled_counts cls subject + 1) ∨
    (is_valid_assignment I s cls subject teacher room slot = false ∧
      schedule_subject I s cls subject teacher room slot = (false, s)) := by
  cases hv : is_valid_assignment I s cls subject teacher room slot with
  | true =>
    left
    refine ⟨rfl, ?_, ?_⟩
    · simp [schedule_subject_of_valid I s cls subject teacher room slot hv]
    · rw [schedule_subject_of_valid I s cls subject teacher room slot hv]
      simpa using apply_schedule_counts I s cls subject teacher room slot subject
  | false =>
    right
    exact ⟨rfl, schedule_subject_of_invalid I s cls subject teacher room slot hv⟩

/-- C2 (counterexample): in `exS2` the scheduled count of (C, S) already
equals its required count 1, yet the try-place primitive accepts a second
session of S at the free slot Mon-2 and the count rises to 2 — refuting the
claim that such a candidate is rejected. -/
theorem schedule_subject_accepts_beyond_required :
    exS2.scheduled_counts "C" "S" = 1 ∧
    requiredOf exP2 "C" "S" = 1 ∧
    (schedule_subject exP2 exS2 "C" "S" "T" "R" "Mon-2").1 = true ∧
    (schedule_subject exP2 exS2 "C" "S" "T" "R" "Mon-2").2.scheduled_counts "C" "S" = 2 := by
  decide

/-- C3 (amended): the admissibility check computes the required room kind of
a lab-subject from `subject_room_requirements.get(subject, 'theory')` — the
lab-subject's own name, not a forced `'lab'` — so whenever that lookup is
not `'lab'` (in particular when the lab-subject is absent from the mapping),
a lab-kind room is rejected for it. -/
theorem is_valid_lab_room_needs_declared_lab (I : Problem) (s : State)
    (cls subject teacher room slot : String)
    (_hlab : isLab subject = true)
    (hreq : required_room_type I subject ≠ "lab")
    (hroom : (roomInfo I room).rtype = "lab") :
    is_valid_assignment I s cls subject teacher room slot = false := by
  unfold is_valid_assignment
  rw [hroom]
  have h6 : (required_room_type I subject == "lab") = false :=
    beq_eq_false_iff_ne.mpr hreq
  simp [h6]

/-- C3 (witness): the amended theorem applied to `exP3`, whose mapping omits
"S Lab": the lab room L is rejected for the lab-subject. -/
theorem is_valid_lab_room_needs_declared_lab_witness :
    is_valid_assignment exP3 exS3 "C" "S Lab" "T" "L" "Mon-2" = false :=
  is_valid_lab_room_needs_declared_lab exP3 exS3 "C" "S Lab" "T" "L" "Mon-2"
    (by decide) (by decide) (by decide)

/-- C3 (counterexample): in `exP3` (no entry for "S Lab" in
`subject_room_requirements`, theory session of S already placed at Mon-1)
the admissibility check accepts the lab-subject in the theory room R and
rejects it in the lab room L — the required kind is not always lab. -/
theorem lab_subject_admissible_in_theory_room :
    isLab "S Lab" = true ∧
    (roomInfo exP3 "R").rtype = "theory" ∧
    is_valid_assignment exP3 exS3 "C" "S Lab" "T" "R" "Mon-2" = true ∧
    (roomInfo exP3 "L").rtype = "lab" ∧
    is_valid_assignment exP3 exS3 "C" "S Lab" "T" "L" "Mon-2" = false := by
  decide

theorem coverage_inner_at (I : Problem) (subject : String) :
    ∀ (ts : List String) (cov : String → Int),
      ((ts.foldl (fun cov teacher =>
          if (qualsOf I teacher).contains subject then upd cov subject (cov subject + 1)
          else cov) cov) subject =
        cov subject + ((ts.filter (fun t => (qualsOf I t).contains subject)).length : Int)) ∧
      (∀ k, k ≠ subject →
        (ts.foldl (fun cov teacher =>
          if (qualsOf I teacher).contains subject then upd cov subject (cov subject + 1)
          else cov) cov) k = cov k) := by
  intro ts
  induction ts with
  | nil => intro cov; simp
  | cons t rest ih =>
    intro cov
    cases hq : (qualsOf I t).contains subject with
    | true =>
      constructor
      · have h1 := (ih (upd cov subject (cov subject + 1))).1
        have hq2 : subject ∈ qualsOf I t := by simpa using hq
        simp only [List.foldl_cons, hq, if_true]
        rw [h1, upd_apply_self]
        simp [List.filter_cons, hq2]
        ring
      · intro k hk
        have h2 := (ih (upd cov subject (cov subject + 1))).2 k hk
        simp only [List.foldl_cons, hq, if_true]
        rw [h2, upd]
        simp [hk]
    | false =>
      constructor
      · have h1 := (ih cov).1
        have hq2 : subject ∉ qualsOf I t := by simpa using hq
        simp only [List.foldl_cons, hq, Bool.false_eq_true, if_false]
        rw [h1]
        simp [List.filter_cons, hq2]
      · intro k hk
        have h2 := (ih cov).2 k hk
        simp only [List.foldl_cons, hq, Bool.false_eq_true, if_false]
        exact h2

theorem coverage_outer_preserve (I : Problem) (x : String) :
    ∀ (L : List String) (cov : String → Int), x ∉ L →
      (L.foldl (fun cov subject =>
        I.teachers.foldl (fun cov teacher =>
          if (qualsOf I teacher).contains subject then upd cov subject (cov subject + 1)
          else cov) cov) cov) x = cov x := by
  intro L
  induction L with
  | nil => intro cov _; rfl
  | cons a rest ih =>
    intro cov hx
    have hxa : x ≠ a := fun h => hx (h ▸ List.mem_cons_self a rest)
    have hxr : x ∉ rest := fun h => hx (List.mem_cons_of_mem a h)
    simp only [List.foldl_cons]
    rw [ih _ hxr, (coverage_inner_at I a I.teachers cov).2 x hxa]

theorem coverage_counts_eq (I : Problem) :
    ∀ (L : List String) (cov : String → Int), L.Nodup → ∀ x ∈ L,
      (L.foldl (fun cov subject =>
        I.teachers.foldl (fun cov teacher =>
          if (qualsOf I teacher).contains subject then upd cov subject (cov subject + 1)
          else cov) cov) cov) x = cov x + qualified_count I x := by
  intro L
  induction L with
  | nil => intro cov _ x hx; cases hx
  | cons a rest ih =>
    intro cov hnd x hx
    have hna : a ∉ rest := (List.nodup_cons.mp hnd).1
    have hndr : rest.Nodup := (List.nodup_cons.mp hnd).2
    simp only [List.foldl_cons]
    by_cases hxa : x = a
    · subst hxa
      rw [coverage_outer_preserve I x rest _ hna,
        (coverage_inner_at I x I.teachers cov).1]
      rfl
    · have hxr : x ∈ rest := by
        cases List.mem_cons.mp hx with
        | inl h => exact absurd h hxa
        | inr h => exact h
      rw [ih _ hndr x hxr, (coverage_inner_at I a I.teachers cov).2 x hxa]

theorem coverage_counts_qualified (I : Problem) (x : String)
    (hx : x ∈ checked_subjects I) :
    coverage_counts I x = qualified_count I x := by
  unfold coverage_counts
  rw [coverage_counts_eq I (checked_subjects I) (fun _ => 0)
    (List.nodup_dedup _) x hx]
  simp

/-- C7 (amended): the constructor's coverage validation raises exactly when
some subject of the `subjects` input list — or the derived lab of such a
subject with credits ≥ 3 — has zero qualified teachers.  An expanded
required subject that appears only in `subject_credits` is not in this
checked set, so construction succeeds even if nobody can teach it. -/
theorem check_teacher_coverage_iff (I : Problem) :
    check_teacher_coverage I = true ↔
      ∃ subject ∈ checked_subjects I, qualified_count I subject = 0 := by
  unfold check_teacher_coverage
  rw [List.any_eq_true]
  constructor
  · rintro ⟨x, hx, hdec⟩
    refine ⟨x, hx, ?_⟩
    rw [← coverage_counts_qualified I x hx]
    exact of_decide_eq_true hdec
  · rintro ⟨x, hx, hq⟩
    refine ⟨x, hx, ?_⟩
    rw [decide_eq_true_eq, coverage_counts_qualified I x hx]
    exact hq

/-- C7 (counterexample): in `exP7` the subject "B" has positive credits, so
(B, 1) is in every class's requirement bag, but no teacher is qualified for
it; the claim says construction must raise UnqualifiedSubject, yet all three
validation steps pass. -/
theorem construction_accepts_uncovered_required_subject :
    init_ok exP7 = true ∧
    ("B", 1) ∈ subject_assignments exP7 "C" ∧
    qualified_count exP7 "B" = 0 := by
  decide

theorem subject_assignments_of_mem (I : Problem) :
    ∀ (L : List String) (cls : String), cls ∈ L →
      (List.lookup cls (L.map (fun c => (c, expand_credits I.subject_credits)))).getD [] =
        expand_credits I.subject_credits := by
  intro L
  induction L with
  | nil => intro cls h; cases h
  | cons a rest ih =>
    intro cls h
    by_cases hca : cls = a
    · subst hca
      simp [List.lookup]
    · have hr : cls ∈ rest := by
        cases List.mem_cons.mp h with
        | inl hh => exact absurd hh hca
        | inr hh => exact hh
      have hb : (cls == a) = false := beq_eq_false_iff_ne.mpr hca
      simp only [List.map_cons, List.lookup, hb]
      exact ih cls hr

theorem subject_assignments_eq_expand (I : Problem) (cls : String)
    (h : cls ∈ I.classes) :
    subject_assignments I cls = expand_credits I.subject_credits := by
  unfold subject_assignments setup_subject_assignments lookupD
  exact subject_assignments_of_mem I I.classes cls h

theorem expand_fold_mono (x : String × Int) :
    ∀ (credits : List (String × Int)) (acc : List (String × Int)), x ∈ acc →
      x ∈ credits.foldl (fun acc p =>
        if p.2 > 0 then
          if p.2 ≥ 3 then acc ++ [(p.1, p.2), (p.1 ++ " Lab", 1)]
          else acc ++ [(p.1, p.2)]
        else acc) acc := by
  intro credits
  induction credits with
  | nil => intro acc h; exact h
  | cons p rest ih =>
    intro acc h
    simp only [List.foldl_cons]
    apply ih
    by_cases h1 : p.2 > 0
    · by_cases h2 : p.2 ≥ 3 <;> simp [h1, h2, List.mem_append, h]
    · simp [h1, h]

theorem expand_fold_mem (sub : String) (c : Int) :
    ∀ (credits : List (String × Int)) (acc : List (String × Int)),
      (sub, c) ∈ credits → 0 < c →
      ((sub, c) ∈ credits.foldl (fun acc p =>
          if p.2 > 0 then
            if p.2 ≥ 3 then acc ++ [(p.1, p.2), (p.1 ++ " Lab", 1)]
            else acc ++ [(p.1, p.2)]
          else acc) acc ∧
        (3 ≤ c → (sub ++ " Lab", 1) ∈ credits.foldl (fun acc p =>
          if p.2 > 0 then
            if p.2 ≥ 3 then acc ++ [(p.1, p.2), (p.1 ++ " Lab", 1)]
            else acc ++ [(p.1, p.2)]
          else acc) acc)) := by
  intro credits
  induction credits with
  | nil => intro acc h _; cases h
  | cons p rest ih =>
    intro acc hmem hc
    cases List.mem_cons.mp hmem with
    | inl heq =>
      subst heq
      simp only [List.foldl_cons]
      constructor
      · apply expand_fold_mono
        by_cases h2 : c ≥ 3 <;> simp [hc, h2, List.mem_append]
      · intro h3
        apply expand_fold_mono
        simp [hc, h3, List.mem_append]
    | inr hr =>
      simp only [List.foldl_cons]
      exact ih _ hr hc

/-- C10: the expanded requirement bag is the same for every class and is
derived solely from `subject_credits`: every subject with positive credits
is required (with its lab-subject added when credits ≥ 3) whether or not it
appears in the `subjects` input list, and a subject outside that list (and
not a derived lab of one of its members) is never examined by the
teacher-coverage check. -/
theorem requirement_bag_from_credits (I : Problem) :
    (∀ c1 ∈ I.classes, ∀ c2 ∈ I.classes,
      subject_assignments I c1 = subject_assignments I c2) ∧
    (∀ cls ∈ I.classes, ∀ sub c, (sub, c) ∈ I.subject_credits → 0 < c →
      ((sub, c) ∈ subject_assignments I cls ∧
        (3 ≤ c → (sub ++ " Lab", 1) ∈ subject_assignments I cls))) ∧
    (∀ sub, sub ∉ I.subjects → (∀ b ∈ I.subjects, sub ≠ b ++ " Lab") →
      sub ∉ checked_subjects I) := by
  refine ⟨?_, ?_, ?_⟩
  · intro c1 h1 c2 h2
    rw [subject_assignments_eq_expand I c1 h1, subject_assignments_eq_expand I c2 h2]
  · intro cls hcls sub c hmem hc
    rw [subject_assignments_eq_expand I cls hcls]
    exact expand_fold_mem sub c I.subject_credits [] hmem hc
  · intro sub h1 h2 hmem
    unfold checked_subjects at hmem
    rw [List.mem_dedup, List.mem_append] at hmem
    cases hmem with
    | inl h => exact h1 h
    | inr h =>
      unfold lab_subjects_of at h
      obtain ⟨b, hb, hbeq⟩ := List.mem_map.mp h
      exact h2 b (List.mem_of_mem_filter hb) hbeq.symm

/-- C10 (witness): concrete instantiation on `exPw`, whose subject "B" has
credits 2 without appearing in the `subjects` list. -/
theorem requirement_bag_from_credits_witness :
    subject_assignments exPw "C1" = subject_assignments exPw "C2" ∧
    ("B", 2) ∈ subject_assignments exPw "C1" ∧
    ("A Lab", 1) ∈ subject_assignments exPw "C1" ∧
    "B" ∉ checked_subjects exPw := by
  have h := requirement_bag_from_credits exPw
  refine ⟨h.1 "C1" (by decide) "C2" (by decide), ?_, ?_, ?_⟩
  · exact (h.2.1 "C1" (by decide) "B" 2 (by decide) (by decide)).1
  · exact (h.2.1 "C1" (by decide) "A" 3 (by decide) (by decide)).2 (by decide)
  · exact h.2.2 "B" (by decide) (by decide)

theorem upd_append_not_mem {g : String → List String} {L sub k0 : String}
    (hg : ∀ k, L ∉ g k) (hne : sub ≠ L) :
    ∀ k, L ∉ (upd g k0 (g k0 ++ [sub])) k := by
  intro k
  have hns : L ≠ sub := fun h => hne h.symm
  by_cases hk : k = k0
  · subst hk
    simp [upd, List.mem_append, hg k, hns]
  · simp [upd, hk, hg k]

theorem edge_step_no_lab (I : Problem) (subjects : List String)
    (subject L prereq : String)
    (acc : (String → List String) × (String → Int))
    (hne : subject ≠ L) (hg : ∀ k, L ∉ acc.1 k) (hd : acc.2 L = 0) :
    (∀ k, L ∉ (edge_step I subjects subject acc prereq).1 k) ∧
      (edge_step I subjects subject acc prereq).2 L = 0 := by
  unfold edge_step
  have hdeg : ∀ (d : String → Int) (v : Int), d L = 0 → upd d subject v L = 0 := by
    intro d v hdl
    have hLs : L ≠ subject := fun h => hne h.symm
    simp [upd, hLs, hdl]
  cases h1 : subjects.contains prereq with
  | true =>
    simp only [h1, if_true]
    cases h2 : (isLab subject && subjects.contains (baseOf subject)) with
    | true =>
      simp only [h2, if_true]
      exact ⟨upd_append_not_mem (upd_append_not_mem hg hne) hne,
        hdeg _ _ (hdeg _ _ hd)⟩
    | false =>
      simp only [h2, Bool.false_eq_true, if_false]
      exact ⟨upd_append_not_mem hg hne, hdeg _ _ hd⟩
  | false =>
    simp only [h1, Bool.false_eq_true, if_false]
    cases h2 : (isLab subject && subjects.contains (baseOf subject)) with
    | true =>
      simp only [h2, if_true]
      exact ⟨upd_append_not_mem hg hne, hdeg _ _ hd⟩
    | false =>
      simp only [h2, Bool.false_eq_true, if_false]
      exact ⟨hg, hd⟩

theorem graph_step_no_lab (I : Problem) (subjects : List String)
    (subject L : String) (hne : subject ≠ L) :
    ∀ (plist : List String) (acc : (String → List String) × (String → Int)),
      (∀ k, L ∉ acc.1 k) → acc.2 L = 0 →
      (∀ k, L ∉ (plist.foldl (edge_step I subjects subject) acc).1 k) ∧
        (plist.foldl (edge_step I subjects subject) acc).2 L = 0 := by
  intro plist
  induction plist with
  | nil => intro acc hg hd; exact ⟨hg, hd⟩
  | cons p rest ih =>
    intro acc hg hd
    simp only [List.foldl_cons]
    have h := edge_step_no_lab I subjects subject L p acc hne hg hd
    exact ih _ h.1 h.2

theorem build_fold_no_lab (I : Problem) (subjects : List String) (L : String)
    (hp : lookupD I.subject_prerequisites (baseOf L) [] = []) :
    ∀ (todo : List String) (acc : (String → List String) × (String → Int)),
      (∀ k, L ∉ acc.1 k) → acc.2 L = 0 →
      (∀ k, L ∉ (todo.foldl (fun acc subject => graph_step I subjects subject acc) acc).1 k) ∧
        (todo.foldl (fun acc subject => graph_step I subjects subject acc) acc).2 L = 0 := by
  intro todo
  induction todo with
  | nil => intro acc hg hd; exact ⟨hg, hd⟩
  | cons x rest ih =>
    intro acc hg hd
    simp only [List.foldl_cons]
    by_cases hx : x = L
    · subst hx
      have hstep : graph_step I subjects x acc = acc := by
        unfold graph_step
        rw [hp]
        rfl
      rw [hstep]
      exact ih acc hg hd
    · have h := graph_step_no_lab I subjects x L hx
        (lookupD I.subject_prerequisites (baseOf x) []) acc hg hd
      unfold graph_step
      exact ih _ h.1 h.2

/-- Absence half of the edge characterization: a subject L whose base has
no declared prerequisites receives no incoming edge at all (and in-degree
0), because the theory→lab insertion sits inside the loop over those
declared prerequisites. -/
theorem lab_edge_requires_declared_prereq (I : Problem) (cls L : String)
    (hp : lookupD I.subject_prerequisites (baseOf L) [] = []) :
    (∀ k, L ∉ (build_graph I cls).1 k) ∧ (build_graph I cls).2 L = 0 := by
  unfold build_graph
  exact build_fold_no_lab I (topo_subject_list I cls) L hp
    (topo_subject_list I cls) (fun _ => [], fun _ => 0)
    (fun k => List.not_mem_nil L) rfl

/-- C8 (counterexample): in `exP8` the class set contains both S and
"S Lab", yet the built graph records no successor of S at all — there is no
S → "S Lab" edge, refuting the claim that the edge is always present. -/
theorem lab_subject_without_theory_edge :
    "S Lab" ∈ topo_subject_list exP8 "C" ∧
    "S" ∈ topo_subject_list exP8 "C" ∧
    (build_graph exP8 "C").1 "S" = [] := by
  decide

theorem exS9a_unfold :
    exS9a = apply_schedule exP9 init_state "C" "S" "T" "R" "Mon-1" := by
  unfold exS9a
  rw [schedule_subject_of_valid exP9 init_state "C" "S" "T" "R" "Mon-1" (by decide)]

theorem exS9b_unfold :
    exS9b = apply_schedule exP9 init_state "C" "S" "T" "R" "Mon-5" := by
  unfold exS9b
  rw [schedule_subject_of_valid exP9 init_state "C" "S" "T" "R" "Mon-5" (by decide)]

theorem exS9a_priority : exS9a.class_priority "C" = 1/3 := by
  rw [exS9a_unfold]
  show upd init_state.class_priority "C"
      (recompute_priority exP9
        (upd2 init_state.scheduled_counts "C" "S" (init_state.scheduled_counts "C" "S" + 1))
        "C") "C" = 1/3
  rw [upd_apply_self]
  unfold recompute_priority
  have hbag : subject_assignments exP9 "C" = [("S", 3), ("S Lab", 1)] := by decide
  rw [hbag]
  have h1 : upd2 init_state.scheduled_counts "C" "S"
      (init_state.scheduled_counts "C" "S" + 1) "C" "S" = 1 := by decide
  have h2 : upd2 init_state.scheduled_counts "C" "S"
      (init_state.scheduled_counts "C" "S" + 1) "C" "S Lab" = 0 := by decide
  simp [h1, h2]

theorem exS9b_priority : exS9b.class_priority "C" = 1/3 := by
  rw [exS9b_unfold]
  show upd init_state.class_priority "C"
      (recompute_priority exP9
        (upd2 init_state.scheduled_counts "C" "S" (init_state.scheduled_counts "C" "S" + 1))
        "C") "C" = 1/3
  rw [upd_apply_self]
  unfold recompute_priority
  have hbag : subject_assignments exP9 "C" = [("S", 3), ("S Lab", 1)] := by decide
  rw [hbag]
  have h1 : upd2 init_state.scheduled_counts "C" "S"
      (init_state.scheduled_counts "C" "S" + 1) "C" "S" = 1 := by decide
  have h2 : upd2 init_state.scheduled_counts "C" "S"
      (init_state.scheduled_counts "C" "S" + 1) "C" "S Lab" = 0 := by decide
  simp [h1, h2]

theorem exS9a_score_true :
    calculate_slot_score exP9 exS9a "C" "S" "T" "R" "Mon-2" true = 553/10 := by
  simp only [calculate_slot_score]
  have hex : exS9a.class_subject_time "C" "S" = ["Mon-1"] := by decide
  have hload : loadSum exP9 exS9a.teacher_daily_load "T" = 1 := by decide
  have hdaily : exS9a.teacher_daily_load "T" (dayOf "Mon-2") = 1 := by decide
  have hcnt : exS9a.scheduled_counts "C" "S" = 1 := by decide
  have hreq : requiredOf exP9 "C" "S" = 3 := by decide
  have hmax : exP9.teacher_max_daily_load = 5 := by decide
  have hlab : isLab "S" = false := by decide
  rw [hex, hload, hdaily, hcnt, hreq, hmax, exS9a_priority, hlab]
  have hm : minList (List.map (fun t => natDist (slotIdx exP9 "Mon-2") (slotIdx exP9 t))
      ["Mon-1"]) = 1 := by decide
  rw [hm]
  norm_num

theorem exS9b_score_true :
    calculate_slot_score exP9 exS9b "C" "S" "T" "R" "Mon-2" true = 503/10 := by
  simp only [calculate_slot_score]
  have hex : exS9b.class_subject_time "C" "S" = ["Mon-5"] := by decide
  have hload : loadSum exP9 exS9b.teacher_daily_load "T" = 1 := by decide
  have hdaily : exS9b.teacher_daily_load "T" (dayOf "Mon-2") = 1 := by decide
  have hcnt : exS9b.scheduled_counts "C" "S" = 1 := by decide
  have hreq : requiredOf exP9 "C" "S" = 3 := by decide
  have hmax : exP9.teacher_max_daily_load = 5 := by decide
  have hlab : isLab "S" = false := by decide
  rw [hex, hload, hdaily, hcnt, hreq, hmax, exS9b_priority, hlab]
  have hm : minList (List.map (fun t => natDist (slotIdx exP9 "Mon-2") (slotIdx exP9 t))
      ["Mon-5"]) = 3 := by decide
  rw [hm]
  norm_num

theorem exS9a_score_false :
    calculate_slot_score exP9 exS9a "C" "S" "T" "R" "Mon-2" false = 453/10 := by
  simp only [calculate_slot_score]
  have hload : loadSum exP9 exS9a.teacher_daily_load "T" = 1 := by decide
  have hdaily : exS9a.teacher_daily_load "T" (dayOf "Mon-2") = 1 := by decide
  have hcnt : exS9a.scheduled_counts "C" "S" = 1 := by decide
  have hreq : requiredOf exP9 "C" "S" = 3 := by decide
  have hmax : exP9.teacher_max_daily_load = 5 := by decide
  have hlab : isLab "S" = false := by decide
  rw [hload, hdaily, hcnt, hreq, hmax, exS9a_priority, hlab]
  norm_num

theorem exS9b_score_false :
    calculate_slot_score exP9 exS9b "C" "S" "T" "R" "Mon-2" false = 453/10 := by
  simp only [calculate_slot_score]
  have hload : loadSum exP9 exS9b.teacher_daily_load "T" = 1 := by decide
  have hdaily : exS9b.teacher_daily_load "T" (dayOf "Mon-2") = 1 := by decide
  have hcnt : exS9b.scheduled_counts "C" "S" = 1 := by decide
  have hreq : requiredOf exP9 "C" "S" = 3 := by decide
  have hmax : exP9.teacher_max_daily_load = 5 := by decide
  have hlab : isLab "S" = false := by decide
  rw [hload, hdaily, hcnt, hreq, hmax, exS9b_priority, hlab]
  norm_num

/-- C9: `exP9` is constructed with `consecutive_preferred = false`, yet the
score computed during placement search still contains the consecutiveness
bonus: every call site of `find_available_slot` omits the
`prefer_consecutive` argument, so the Python default `True` is always
passed (the stored `self.consecutive_preferred` is never read).  The states
`exS9a` and `exS9b` differ only in where the one existing S session sits
(distance 1 vs 3 from the candidate), and the search scores them 553/10 vs
503/10 — unequal, because the +10/+5 component is present; with the flag
honored (third conjunct) they would both score 453/10. -/
theorem consecutive_preferred_flag_ignored :
    exP9.consecutive_preferred = false ∧
    calculate_slot_score exP9 exS9a "C" "S" "T" "R" "Mon-2" true ≠
      calculate_slot_score exP9 exS9b "C" "S" "T" "R" "Mon-2" true ∧
    calculate_slot_score exP9 exS9a "C" "S" "T" "R" "Mon-2" false =
      calculate_slot_score exP9 exS9b "C" "S" "T" "R" "Mon-2" false := by
  refine ⟨rfl, ?_, ?_⟩
  · rw [exS9a_score_true, exS9b_score_true]
    norm_num
  · rw [exS9a_score_false, exS9b_score_false]

theorem upd_cancel {α : Type} (f : String → α) (k : String) (v w : α)
    (h : f k = w) : upd (upd f k v) k w = f := by
  rw [upd_upd, ← h, upd_same]

theorem erase_append_singleton {l : List String} {x : String} (h : x ∉ l) :
    (l ++ [x]).erase x = l := by
  induction l with
  | nil => simp
  | cons a rest ih =>
    have hxa : x ≠ a := fun hh => h (hh ▸ List.mem_cons_self a rest)
    have hxr : x ∉ rest := fun hh => h (List.mem_cons_of_mem a hh)
    have hax : (a == x) = false := beq_eq_false_iff_ne.mpr (fun hh => hxa hh.symm)
    simp only [List.cons_append, List.erase_cons, hax, Bool.false_eq_true, if_false]
    rw [ih hxr]

/-- C6: placing an admissible candidate with the try-place primitive and
then unplacing the same (class, slot) cell restores every index of the
state bit-for-bit — snapshot equality of the full `State` record — for
every state whose indexes are coherent (specification invariant 11, which
holds in every state the scheduler reaches). -/
theorem place_then_unplace_roundtrip (I : Problem) (s : State)
    (cls subject teacher room slot : String)
    (hc : Coherent I s)
    (hv : is_valid_assignment I s cls subject teacher room slot = true) :
    unschedule_subject I (schedule_subject I s cls subject teacher room slot).2 cls slot
      = (true, s) := by
  obtain ⟨hTB, hCB, hRB⟩ := is_valid_bookings_false I s cls subject teacher room slot hv
  obtain ⟨hc1, hc2, hc3, hc4, hc5⟩ := hc
  have hsched : s.schedule cls slot = none := hc1 cls slot hCB
  have hcst : slot ∉ s.class_subject_time cls subject := by
    intro hm
    have h := hc2 cls subject slot hm
    rw [hCB] at h
    exact Bool.noConfusion h
  have hts : s.teacher_schedule teacher slot = none := hc3 teacher slot hTB
  have hlabm : room ∉ s.lab_room_bookings slot := by
    intro hm
    have h := hc4 slot room hm
    rw [hRB] at h
    exact Bool.noConfusion h
  rw [schedule_subject_of_valid I s cls subject teacher room slot hv]
  have hstate : apply_unschedule I (apply_schedule I s cls subject teacher room slot) cls slot
      ⟨subject, teacher, room⟩ = s := by
    refine State.ext ?_ ?_ ?_ ?_ ?_ ?_ ?_ ?_ ?_ ?_
    · show upd2 (upd2 s.schedule cls slot (some ⟨subject, teacher, room⟩)) cls slot none
        = s.schedule
      exact upd2_cancel s.schedule cls slot (some ⟨subject, teacher, room⟩) none hsched
    · show upd2 (upd2 s.teacher_bookings teacher slot true) teacher slot false
        = s.teacher_bookings
      exact upd2_cancel s.teacher_bookings teacher slot true false hTB
    · show upd2 (upd2 s.class_bookings cls slot true) cls slot false = s.class_bookings
      exact upd2_cancel s.class_bookings cls slot true false hCB
    · show upd2 (upd2 s.room_bookings room slot true) room slot false = s.room_bookings
      exact upd2_cancel s.room_bookings room slot true false hRB
    · show upd2 (upd2 s.teacher_daily_load teacher (dayOf slot)
          (s.teacher_daily_load teacher (dayOf slot) + 1)) teacher (dayOf slot)
          (upd2 s.teacher_daily_load teacher (dayOf slot)
            (s.teacher_daily_load teacher (dayOf slot) + 1) teacher (dayOf slot) - 1)
        = s.teacher_daily_load
      rw [upd2_apply_self, Int.add_sub_cancel]
      exact upd2_cancel _ _ _ _ _ rfl
    · show upd2 (upd2 s.class_subject_time cls subject
          (s.class_subject_time cls subject ++ [slot])) cls subject
          ((upd2 s.class_subject_time cls subject
            (s.class_subject_time cls subject ++ [slot]) cls subject).erase slot)
        = s.class_subject_time
      rw [upd2_apply_self, erase_append_singleton hcst]
      exact upd2_cancel _ _ _ _ _ rfl
    · show upd2 (upd2 s.teacher_schedule teacher slot (some (cls, subject))) teacher slot none
        = s.teacher_schedule
      exact upd2_cancel s.teacher_schedule teacher slot (some (cls, subject)) none hts
    · show upd2 (upd2 s.scheduled_counts cls subject (s.scheduled_counts cls subject + 1))
          cls subject
          (upd2 s.scheduled_counts cls subject (s.scheduled_counts cls subject + 1) cls subject - 1)
        = s.scheduled_counts
      rw [upd2_apply_self, Int.add_sub_cancel]
      exact upd2_cancel _ _ _ _ _ rfl
    · show upd (upd s.class_priority cls (recompute_priority I
          (upd2 s.scheduled_counts cls subject (s.scheduled_counts cls subject + 1)) cls)) cls
          (recompute_priority I
            (upd2 (upd2 s.scheduled_counts cls subject (s.scheduled_counts cls subject + 1))
              cls subject
              (upd2 s.scheduled_counts cls subject (s.scheduled_counts cls subject + 1)
                cls subject - 1)) cls)
        = s.class_priority
      have hcounts : upd2 (upd2 s.scheduled_counts cls subject
          (s.scheduled_counts cls subject + 1)) cls subject
          (upd2 s.scheduled_counts cls subject (s.scheduled_counts cls subject + 1)
            cls subject - 1)
        = s.scheduled_counts := by
        rw [upd2_apply_self, Int.add_sub_cancel]
        exact upd2_cancel _ _ _ _ _ rfl
      rw [hcounts, upd_upd, ← hc5 cls]
      exact upd_same s.class_priority cls
    · show (if isLab subject && ((roomInfo I room).rtype == "lab") then
          upd (if isLab subject && ((roomInfo I room).rtype == "lab") then
              upd s.lab_room_bookings slot (addSet (s.lab_room_bookings slot) room)
            else s.lab_room_bookings) slot
            (((if isLab subject && ((roomInfo I room).rtype == "lab") then
              upd s.lab_room_bookings slot (addSet (s.lab_room_bookings slot) room)
            else s.lab_room_bookings) slot).erase room)
        else (if isLab subject && ((roomInfo I room).rtype == "lab") then
              upd s.lab_room_bookings slot (addSet (s.lab_room_bookings slot) room)
            else s.lab_room_bookings))
        = s.lab_room_bookings
      by_cases hcond : (isLab subject && ((roomInfo I room).rtype == "lab")) = true
      · rw [if_pos hcond, if_pos hcond, upd_apply_self]
        have hadd : addSet (s.lab_room_bookings slot) room = room :: s.lab_room_bookings slot := by
          unfold addSet
          rw [if_neg (fun hcontains => hlabm (List.mem_of_elem_eq_true hcontains))]
        rw [hadd, List.erase_cons_head]
        exact upd_cancel _ _ _ _ rfl
      · rw [if_neg hcond, if_neg hcond]
  have hread : (apply_schedule I s cls subject teacher room slot).schedule cls slot
      = some ⟨subject, teacher, room⟩ :=
    upd2_apply_self s.schedule cls slot (some ⟨subject, teacher, room⟩)
  unfold unschedule_subject
  rw [hread]
  exact congrArg (Prod.mk true) hstate

/-- C6 (witness): the round-trip applied concretely on `exP2` from the
freshly initialized (trivially coherent) state. -/
theorem place_then_unplace_roundtrip_witness :
    unschedule_subject exP2 (schedule_subject exP2 init_state "C" "S" "T" "R" "Mon-1").2
      "C" "Mon-1" = (true, init_state) := by
  apply place_then_unplace_roundtrip
  · refine ⟨?_, ?_, ?_, ?_, ?_⟩
    · intro c t _; rfl
    · intro c sub t hm; cases hm
    · intro te t _; rfl
    · intro t r hm; cases hm
    · intro c
      show (0 : ℚ) = recompute_priority exP2 init_state.scheduled_counts c
      unfold recompute_priority
      by_cases hcc : c = "C"
      · subst hcc
        have hbag : subject_assignments exP2 "C" = [("S", 1)] := by decide
        rw [hbag]
        simp [init_state]
      · have hb : (c == "C") = false := beq_eq_false_iff_ne.mpr hcc
        have hbag : subject_assignments exP2 c = [] := by
          unfold subject_assignments setup_subject_assignments lookupD
          simp [List.lookup, hb]
        rw [hbag]
        rfl
  · decide

theorem upd_append_mem_mono {g : String → List String} {k0 sub k x : String}
    (h : x ∈ g k) : x ∈ (upd g k0 (g k0 ++ [sub])) k := by
  by_cases hk : k = k0
  · subst hk
    rw [upd_apply_self]
    exact List.mem_append_left _ h
  · simpa [upd, hk] using h

theorem edge_step_mem_mono (I : Problem) (subjects : List String)
    (subject prereq : String) (acc : (String → List String) × (String → Int))
    (k x : String) (h : x ∈ acc.1 k) :
    x ∈ (edge_step I subjects subject acc prereq).1 k := by
  unfold edge_step
  cases h1 : subjects.contains prereq with
  | true =>
    simp only [h1, if_true]
    cases h2 : (isLab subject && subjects.contains (baseOf subject)) with
    | true =>
      simp only [h2, if_true]
      exact upd_append_mem_mono (upd_append_mem_mono h)
    | false =>
      simp only [h2, Bool.false_eq_true, if_false]
      exact upd_append_mem_mono h
  | false =>
    simp only [h1, Bool.false_eq_true, if_false]
    cases h2 : (isLab subject && subjects.contains (baseOf subject)) with
    | true =>
      simp only [h2, if_true]
      exact upd_append_mem_mono h
    | false =>
      simp only [h2, Bool.false_eq_true, if_false]
      exact h

theorem fold_edge_mem_mono (I : Problem) (subjects : List String)
    (subject k x : String) :
    ∀ (plist : List String) (acc : (String → List String) × (String → Int)),
      x ∈ acc.1 k → x ∈ (plist.foldl (edge_step I subjects subject) acc).1 k := by
  intro plist
  induction plist with
  | nil => intro acc h; exact h
  | cons q rest ih =>
    intro acc h
    simp only [List.foldl_cons]
    exact ih _ (edge_step_mem_mono I subjects subject q acc k x h)

theorem build_fold_mem_mono (I : Problem) (subjects : List String) (k x : String) :
    ∀ (todo : List String) (acc : (String → List String) × (String → Int)),
      x ∈ acc.1 k →
      x ∈ (todo.foldl (fun acc subject => graph_step I subjects subject acc) acc).1 k := by
  intro todo
  induction todo with
  | nil => intro acc h; exact h
  | cons y rest ih =>
    intro acc h
    simp only [List.foldl_cons]
    unfold graph_step
    exact ih _ (fold_edge_mem_mono I subjects y k x _ acc h)

theorem edge_step_adds (I : Problem) (subjects : List String)
    (subject P : String) (acc : (String → List String) × (String → Int))
    (hP : subjects.contains P = true) :
    subject ∈ (edge_step I subjects subject acc P).1 P := by
  unfold edge_step
  simp only [hP, if_true]
  cases h2 : (isLab subject && subjects.contains (baseOf subject)) with
  | true =>
    simp only [h2, if_true]
    apply upd_append_mem_mono
    rw [upd_apply_self]
    exact List.mem_append_right _ (List.mem_singleton.mpr rfl)
  | false =>
    simp only [h2, Bool.false_eq_true, if_false]
    rw [upd_apply_self]
    exact List.mem_append_right _ (List.mem_singleton.mpr rfl)

theorem fold_edge_adds (I : Problem) (subjects : List String)
    (subject P : String) (hP : subjects.contains P = true) :
    ∀ (plist : List String) (acc : (String → List String) × (String → Int)),
      P ∈ plist →
      subject ∈ (plist.foldl (edge_step I subjects subject) acc).1 P := by
  intro plist
  induction plist with
  | nil => intro acc h; cases h
  | cons q rest ih =>
    intro acc hmem
    simp only [List.foldl_cons]
    by_cases hq : P = q
    · subst hq
      exact fold_edge_mem_mono I subjects subject P subject rest _
        (edge_step_adds I subjects subject P acc hP)
    · have hr : P ∈ rest := by
        cases List.mem_cons.mp hmem with
        | inl h => exact absurd h hq
        | inr h => exact h
      exact ih _ hr

theorem build_fold_adds (I : Problem) (subjects : List String)
    (subject P : String) (hP : subjects.contains P = true)
    (hdecl : P ∈ lookupD I.subject_prerequisites (baseOf subject) []) :
    ∀ (todo : List String) (acc : (String → List String) × (String → Int)),
      subject ∈ todo →
      subject ∈ (todo.foldl (fun acc s => graph_step I subjects s acc) acc).1 P := by
  intro todo
  induction todo with
  | nil => intro acc h; cases h
  | cons y rest ih =>
    intro acc hmem
    simp only [List.foldl_cons]
    by_cases hy : subject = y
    · subst hy
      apply build_fold_mem_mono
      unfold graph_step
      exact fold_edge_adds I subjects subject P hP _ acc hdecl
    · have hr : subject ∈ rest := by
        cases List.mem_cons.mp hmem with
        | inl h => exact absurd h hy
        | inr h => exact h
      exact ih _ hr

/-- C8 (amended): edge characterization of the prerequisite DAG built by
`topological_sort_subjects`.  First, for every subject S of the class's set
and every declared prerequisite P of S's base that is also in the set, the
graph has an edge P → S.  Second, the implicit theory-before-lab edge is
inserted only inside the loop over the base's declared prerequisites: a
subject L whose base has no declared prerequisites — in particular a
lab-subject "S Lab" with S undeclared in `subject_prerequisites` — has no
incoming edge at all and in-degree 0, so the claimed unconditional S → L
edge exists only when S has at least one declared prerequisite entry. -/
theorem prereq_graph_edge_characterization (I : Problem) (cls : String) :
    (∀ S P, S ∈ topo_subject_list I cls → P ∈ topo_subject_list I cls →
      P ∈ lookupD I.subject_prerequisites (baseOf S) [] →
      S ∈ (build_graph I cls).1 P) ∧
    (∀ L, lookupD I.subject_prerequisites (baseOf L) [] = [] →
      (∀ k, L ∉ (build_graph I cls).1 k) ∧ (build_graph I cls).2 L = 0) := by
  constructor
  · intro S P hS hP hdecl
    unfold build_graph
    exact build_fold_adds I (topo_subject_list I cls) S P
      (List.elem_eq_true_of_mem hP) hdecl (topo_subject_list I cls) _ hS
  · intro L hp
    exact lab_edge_requires_declared_prereq I cls L hp

/-- C8 (witness): both halves applied concretely — on `exP8b` the declared
edge P → S is present; on `exP8` (S without declared prerequisites) the
graph has no edge into "S Lab" although both S and "S Lab" are in the set. -/
theorem prereq_graph_edge_characterization_witness :
    "S" ∈ (build_graph exP8b "C").1 "P" ∧
    ("S Lab" ∉ (build_graph exP8 "C").1 "S" ∧ (build_graph exP8 "C").2 "S Lab" = 0) :=
  ⟨(prereq_graph_edge_characterization exP8b "C").1 "S" "P"
      (by decide) (by decide) (by decide),
   ⟨((prereq_graph_edge_characterization exP8 "C").2 "S Lab" (by decide)).1 "S",
    ((prereq_graph_edge_characterization exP8 "C").2 "S Lab" (by decide)).2⟩⟩
